import Mathlib

/-!
Verification of the decision core of the cardano-trading-bot repository.

The embedding below follows the fullest strategy variant, the backtest loop of
src/backtest-taptools.ts (the variant with decision cadence, cycle profit
filter and trailing/hard stops; mirrored by runBacktest in
src/backtest-sweep.ts and by the live loop in src/bot-twoway.ts).  Money and
price arithmetic is embedded in the rationals; timestamps and millisecond
durations are integers.  Side naming follows the source: SELL_A sells the
base asset A for the quote asset B (opening a LONG_B position, the spec calls
it LONG_QUOTE), SELL_B is the symmetric opposite (opening LONG_A, the spec
calls it LONG_BASE).
-/

namespace TwoWayBot

/-- Final per-tick action, as in the source string union "HOLD" | "SELL_A" | "SELL_B". -/
inductive Act
  | HOLD
  | SELL_A
  | SELL_B
  deriving DecidableEq

/-- Position mode, as in the source type PosMode = "LONG_A" | "LONG_B" | null;
NONE embeds the null case. -/
inductive PosMode
  | NONE
  | LONG_A
  | LONG_B
  deriving DecidableEq

/-- Observable result of one tick of the backtest loop: the tick was skipped
by the decision-cadence gate, evaluated but traded nothing, or executed a
trade of the given side. -/
inductive StepRes
  | cadenceSkip
  | noTrade
  | traded (side : Act)
  deriving DecidableEq

/-- Strategy configuration: the environment constants read at the top of
src/backtest-taptools.ts (BAND_BPS, BAND_ALPHA, EDGE_BPS, BT_COOLDOWN_MS,
BT_DECISION_EVERY_MS, USE_CYCLE_FILTER, MIN_CYCLE_PNL_BPS, EST_CYCLE_FEES_BPS,
TRAIL_STOP_BPS, HARD_STOP_BPS, MAX_PCT_A/B, MIN_TRADE_A/B_DEC, AMOUNT_A/B_DEC
caps, RESERVE_ADA_DEC, MIN_NOTIONAL_OUT, and the total fee
POOL_FEE_BPS + BT_AGG_FEE_BPS), plus the aIsAda flag passed to sizing. -/
structure Params where
  bandBps : ℚ
  alpha : ℚ
  edgeBps : ℚ
  cooldownMs : Int
  decisionEveryMs : Int
  useCycleFilter : Bool
  minCyclePnlBps : ℚ
  estFeesBps : ℚ
  trailBps : ℚ
  hardBps : ℚ
  maxPctA : ℚ
  maxPctB : ℚ
  minTrA : ℚ
  minTrB : ℚ
  capA : ℚ
  capB : ℚ
  reserveAda : ℚ
  aIsAda : Bool
  minNotionalOut : ℚ
  totalFeeBps : ℚ

/-- Mutable simulation state of the backtest loop: inventories invA/invB, the
EMA center, the cooldown clock lastTradeAt, the cadence clock nextDecisionAt,
and the position memory posMode/entryMid/peakMid/troughMid. -/
structure BTState where
  invA : ℚ
  invB : ℚ
  center : ℚ
  lastTradeAt : Int
  nextDecisionAt : Int
  posMode : PosMode
  entryMid : ℚ
  peakMid : ℚ
  troughMid : ℚ

/-- Source helper bpsOver(x, y) = ((x - y) / y) * 10000. -/
def bpsOver (x y : ℚ) : ℚ := (x - y) / y * 10000

/-- Lower band bound from bounds(center, bps) in the source. -/
def boundsLower (center bps : ℚ) : ℚ := center * (1 - bps / 10000)

/-- Upper band bound from bounds(center, bps) in the source. -/
def boundsUpper (center bps : ℚ) : ℚ := center * (1 + bps / 10000)

/-- Source helper applyFeesOut(amountOut, totalFeeBps). -/
def applyFeesOut (amountOut totalFeeBps : ℚ) : ℚ :=
  amountOut * (1 - totalFeeBps / 10000)

/-- Source helper clamp(n, lo, hi) = Math.max(lo, Math.min(hi, n)). -/
def clamp (n lo hi : ℚ) : ℚ := max lo (min hi n)

/-- FEE_BUF_ADA, the fixed fee headroom subtracted next to the ADA reserve. -/
def feeBufAda : ℚ := 2

/-- favorableMoveBps(midNow) of the backtest loop: signed favorable distance
from entry in basis points (up is good for LONG_B, down is good for LONG_A). -/
def favorableMoveBps (s : BTState) (mid : ℚ) : ℚ :=
  match s.posMode with
  | PosMode.LONG_B => (mid - s.entryMid) / s.entryMid * 10000
  | PosMode.LONG_A => (s.entryMid - mid) / s.entryMid * 10000
  | PosMode.NONE => 0

/-- trailDrawdownBps(midNow) of the backtest loop: giveback since the best
point reached, guarded by peakMid > 0 (resp. troughMid > 0) as in the source. -/
def trailDrawdownBps (s : BTState) (mid : ℚ) : ℚ :=
  match s.posMode with
  | PosMode.LONG_B => if s.peakMid > 0 then (s.peakMid - mid) / s.peakMid * 10000 else 0
  | PosMode.LONG_A => if s.troughMid > 0 then (mid - s.troughMid) / s.troughMid * 10000 else 0
  | PosMode.NONE => 0

/-- hardStopFromEntryBps(midNow) of the backtest loop: signed adverse distance
from entry in basis points. -/
def hardStopFromEntryBps (s : BTState) (mid : ℚ) : ℚ :=
  match s.posMode with
  | PosMode.LONG_B => (s.entryMid - mid) / s.entryMid * 10000
  | PosMode.LONG_A => (mid - s.entryMid) / s.entryMid * 10000
  | PosMode.NONE => 0

/-- The forced-close computation of the backtest loop: when a position is
open, evaluate the trailing and hard stop (each only when its threshold is
positive, with -1 standing in for a disabled stop as in the source) and, on a
breach, demand the trade that closes the current position. -/
def forcedCloseSig (p : Params) (s : BTState) (mid : ℚ) : Option Act :=
  if s.posMode ≠ PosMode.NONE then
    let td := if p.trailBps > 0 then trailDrawdownBps s mid else -1
    let hs := if p.hardBps > 0 then hardStopFromEntryBps s mid else -1
    if (p.trailBps > 0 ∧ td ≥ p.trailBps) ∨ (p.hardBps > 0 ∧ hs ≥ p.hardBps) then
      some (if s.posMode = PosMode.LONG_B then Act.SELL_B else Act.SELL_A)
    else none
  else none

/-- The raw band/edge decision of the loop: SELL_A when the mid exceeds the
upper bound by at least edgeBps, SELL_B when it is below the lower bound by at
least edgeBps, else HOLD. -/
def rawAction (edgeBps mid lower upper : ℚ) : Act :=
  if mid > upper ∧ bpsOver mid upper ≥ edgeBps then Act.SELL_A
  else if mid < lower ∧ bpsOver lower mid ≥ edgeBps then Act.SELL_B
  else Act.HOLD

/-- The cooldown gate of the backtest loop: a non-HOLD plan is downgraded to
HOLD when the cooldown is configured and has not yet elapsed. -/
def applyCooldown (p : Params) (lastTradeAt t : Int) (a : Act) : Act :=
  if a ≠ Act.HOLD ∧ p.cooldownMs > 0 ∧ p.cooldownMs - (t - lastTradeAt) > 0 then Act.HOLD
  else a

/-- The single-position (disallow add-to-same-side) downgrade of the loop:
SELL_A is forbidden while LONG_B is open, SELL_B while LONG_A is open. -/
def applySameSide (mode : PosMode) (a : Act) : Act :=
  let a1 := if mode = PosMode.LONG_B ∧ a = Act.SELL_A then Act.HOLD else a
  if mode = PosMode.LONG_A ∧ a1 = Act.SELL_B then Act.HOLD else a1

/-- The cycle profit filter of the loop: a plan that would close the open
cycle is downgraded to HOLD when the filter is enabled, the favorable move is
below MIN_CYCLE_PNL_BPS + EST_CYCLE_FEES_BPS, and the plan is not a forced
close. -/
def applyProfitFilter (p : Params) (s : BTState) (mid : ℚ) (forced : Option Act)
    (a : Act) : Act :=
  if p.useCycleFilter = true ∧ s.posMode ≠ PosMode.NONE ∧
      ((s.posMode = PosMode.LONG_B ∧ a = Act.SELL_B) ∨
        (s.posMode = PosMode.LONG_A ∧ a = Act.SELL_A)) ∧
      favorableMoveBps s mid < p.minCyclePnlBps + p.estFeesBps ∧ forced = none
  then Act.HOLD
  else a

/-- The full decision pipeline of the backtest loop in source order: raw band
signal, forced close composed as planned = forcedClose ?? action, then the
cooldown, the same-side downgrade, and the profit filter. -/
def decideAction (p : Params) (s : BTState) (t : Int) (mid : ℚ) : Act :=
  applyProfitFilter p s mid (forcedCloseSig p s mid)
    (applySameSide s.posMode
      (applyCooldown p s.lastTradeAt t
        ((forcedCloseSig p s mid).getD
          (rawAction p.edgeBps mid (boundsLower s.center p.bandBps)
            (boundsUpper s.center p.bandBps)))))

/-- Start-of-tick state update of the backtest loop: the EMA center update
center = alpha * mid + (1 - alpha) * center, and, while a position is open,
the trailing extremes peakMid = max(peakMid || mid, mid) and
troughMid = min(troughMid || mid, mid) (the JavaScript || treats 0 as unset). -/
def tickUpdate (p : Params) (s : BTState) (mid : ℚ) : BTState :=
  let center1 := p.alpha * mid + (1 - p.alpha) * s.center
  if s.posMode ≠ PosMode.NONE then
    { s with center := center1,
             peakMid := max (if s.peakMid = 0 then mid else s.peakMid) mid,
             troughMid := min (if s.troughMid = 0 then mid else s.troughMid) mid }
  else
    { s with center := center1 }

/-- computeDynamicSizesFromInventory of src/backtest-taptools.ts: percentage
of balance with floors and fixed caps, the ADA reserve and fee buffer when
side A is ADA, and a final bound by the available inventory.  The mid
argument is accepted but unused, as in the source signature. -/
def computeDynamicSizesFromInventory (p : Params) (invA invB mid : ℚ) : ℚ × ℚ :=
  let maxSpendA := if p.aIsAda then max 0 (invA - p.reserveAda - feeBufAda) else invA
  let dynA := p.maxPctA / 100 * maxSpendA
  let dynB := p.maxPctB / 100 * invB
  (min invA (clamp dynA p.minTrA p.capA), min invB (clamp dynB p.minTrB p.capB))

/-- alignNextDecision(ts) of the source: the start of the time bucket
following ts (Math.floor is integer floor division). -/
def alignNextDecision (p : Params) (ts : Int) : Int :=
  (Int.fdiv ts p.decisionEveryMs + 1) * p.decisionEveryMs

/-- closePos() of the source. -/
def closePos (s : BTState) : BTState :=
  { s with posMode := PosMode.NONE, entryMid := 0, peakMid := 0, troughMid := 0 }

/-- openPos(newMode, midNow) of the source. -/
def openPos (s : BTState) (newMode : PosMode) (mid : ℚ) : BTState :=
  { s with posMode := newMode, entryMid := mid, peakMid := mid, troughMid := mid }

/-- Balance, clock and cadence bookkeeping of an executed SELL_A in the
backtest loop. -/
def sellAUpdate (p : Params) (s : BTState) (t : Int) (mid sizeA : ℚ) : BTState :=
  { s with invA := s.invA - sizeA,
           invB := s.invB + applyFeesOut (mid * sizeA) p.totalFeeBps,
           lastTradeAt := t,
           nextDecisionAt :=
             if p.decisionEveryMs > 0 then alignNextDecision p t else s.nextDecisionAt }

/-- Balance, clock and cadence bookkeeping of an executed SELL_B in the
backtest loop. -/
def sellBUpdate (p : Params) (s : BTState) (t : Int) (mid sizeB : ℚ) : BTState :=
  { s with invB := s.invB - sizeB,
           invA := s.invA + applyFeesOut (sizeB / mid) p.totalFeeBps,
           lastTradeAt := t,
           nextDecisionAt :=
             if p.decisionEveryMs > 0 then alignNextDecision p t else s.nextDecisionAt }

/-- Position updates after an executed SELL_A, in source order: close a
LONG_A position if open, then (the mode now being null) open LONG_B at the
current mid. -/
def applyPosAfterSellA (s : BTState) (mid : ℚ) : BTState :=
  let s3 := if s.posMode = PosMode.LONG_A then closePos s else s
  if s3.posMode = PosMode.NONE then openPos s3 PosMode.LONG_B mid else s3

/-- Position updates after an executed SELL_B, in source order. -/
def applyPosAfterSellB (s : BTState) (mid : ℚ) : BTState :=
  let s3 := if s.posMode = PosMode.LONG_B then closePos s else s
  if s3.posMode = PosMode.NONE then openPos s3 PosMode.LONG_A mid else s3

/-- The SELL_A branch of the backtest loop: size the trade, bail out (no
trade) on non-positive size, empty inventory or the MIN_NOTIONAL_OUT guard,
otherwise execute and update the position. -/
def doSellA (p : Params) (s1 : BTState) (t : Int) (mid : ℚ) : BTState × StepRes :=
  if (computeDynamicSizesFromInventory p s1.invA s1.invB mid).1 ≤ 0 ∨ s1.invA ≤ 0 then
    (s1, StepRes.noTrade)
  else if p.minNotionalOut > 0 ∧
      mid * (computeDynamicSizesFromInventory p s1.invA s1.invB mid).1 < p.minNotionalOut then
    (s1, StepRes.noTrade)
  else
    (applyPosAfterSellA
        (sellAUpdate p s1 t mid (computeDynamicSizesFromInventory p s1.invA s1.invB mid).1)
        mid,
      StepRes.traded Act.SELL_A)

/-- The SELL_B branch of the backtest loop. -/
def doSellB (p : Params) (s1 : BTState) (t : Int) (mid : ℚ) : BTState × StepRes :=
  if (computeDynamicSizesFromInventory p s1.invA s1.invB mid).2 ≤ 0 ∨ s1.invB ≤ 0 then
    (s1, StepRes.noTrade)
  else if p.minNotionalOut > 0 ∧
      (computeDynamicSizesFromInventory p s1.invA s1.invB mid).2 / mid < p.minNotionalOut then
    (s1, StepRes.noTrade)
  else
    (applyPosAfterSellB
        (sellBUpdate p s1 t mid (computeDynamicSizesFromInventory p s1.invA s1.invB mid).2)
        mid,
      StepRes.traded Act.SELL_B)

/-- One tick of the backtest loop at timestamp t with mid price mid: EMA and
trailing-extreme update, then the cadence gate (skip while t is before
nextDecisionAt), then the decision pipeline and, when it yields a trade side,
the corresponding execution branch. -/
def step (p : Params) (s : BTState) (t : Int) (mid : ℚ) : BTState × StepRes :=
  if p.decisionEveryMs > 0 ∧ t < (tickUpdate p s mid).nextDecisionAt then
    (tickUpdate p s mid, StepRes.cadenceSkip)
  else
    match decideAction p (tickUpdate p s mid) t mid with
    | Act.HOLD => (tickUpdate p s mid, StepRes.noTrade)
    | Act.SELL_A => doSellA p (tickUpdate p s mid) t mid
    | Act.SELL_B => doSellB p (tickUpdate p s mid) t mid

/-- Folding the loop over a series of (timestamp, mid) ticks. -/
def runState (p : Params) (s : BTState) (ticks : List (Int × ℚ)) : BTState :=
  ticks.foldl (fun st tk => (step p st tk.1 tk.2).1) s

/-- The EMA center update of src/bot-twoway.ts (lines 454-460): none embeds
an uninitialized (non-finite) center, which is seeded with the observed mid;
otherwise center = alpha * mid + (1 - alpha) * center. -/
def emaUpdate (center : Option ℚ) (alpha mid : ℚ) : ℚ :=
  match center with
  | none => mid
  | some c => alpha * mid + (1 - alpha) * c

/-- The SELL_A simulation of the plain backtest loop (src/backtest-taptools.ts
without stops, SELL_A branch): new invA, new invB, and the recorded pnlAda =
(outB / mid) - size where outB = applyFeesOut(mid * size, feeBps). -/
def sellASim (invA invB mid size feeBps : ℚ) : ℚ × ℚ × ℚ :=
  (invA - size,
   invB + applyFeesOut (mid * size) feeBps,
   applyFeesOut (mid * size) feeBps / mid - size)

/-- Mark-to-market portfolio value in A-terms, rollingMarkedAda =
invA + invB / mid in the source. -/
def markedAda (invA invB mid : ℚ) : ℚ := invA + invB / mid

/-- The BAND_ALPHA line of the zod schema in src/config.ts:
z.coerce.number().min(0.0).max(1.0).default(0.06).  The input is the
already-coerced numeric value of the environment variable (none when unset);
schema.parse raising is embedded as Except.error. -/
def parseBandAlpha (x : Option ℚ) : Except String ℚ :=
  match x with
  | none => Except.ok (6 / 100)
  | some v =>
    if v < 0 then Except.error "BAND_ALPHA: below minimum 0"
    else if v > 1 then Except.error "BAND_ALPHA: above maximum 1"
    else Except.ok v

/-- The helper num(env, fallback) of src/bot-twoway.ts: a finite parsed value
passes through unchanged, a missing or non-finite value (none) becomes the
fallback.  No range check is performed. -/
def num (x : Option ℚ) (fallback : ℚ) : ℚ := x.getD fallback

/-! ### Concrete scenario constants used by counterexamples and witnesses -/

/-- C1 scenario parameters: hard stop 500 bps enabled, cooldown 60000 ms. -/
def pC1 : Params :=
  { bandBps := 50, alpha := 1/10, edgeBps := 5, cooldownMs := 60000, decisionEveryMs := 0,
    useCycleFilter := true, minCyclePnlBps := 0, estFeesBps := 60, trailBps := 0, hardBps := 500,
    maxPctA := 15, maxPctB := 15, minTrA := 5, minTrB := 50, capA := 10, capB := 100,
    reserveAda := 0, aIsAda := false, minNotionalOut := 0, totalFeeBps := 30 }

/-- C1 scenario state: LONG_B open at entry 100, last trade at time 0. -/
def sC1 : BTState :=
  { invA := 100, invB := 1000, center := 100, lastTradeAt := 0, nextDecisionAt := 0,
    posMode := PosMode.LONG_B, entryMid := 100, peakMid := 100, troughMid := 100 }

/-- C1 scenario state after the start-of-tick update at mid 90. -/
def sC1a : BTState :=
  { invA := 100, invB := 1000, center := 99, lastTradeAt := 0, nextDecisionAt := 0,
    posMode := PosMode.LONG_B, entryMid := 100, peakMid := 100, troughMid := 90 }

/-- C2 scenario parameters: no cooldown, no stops, profit filter off. -/
def pC2 : Params :=
  { bandBps := 50, alpha := 1/10, edgeBps := 5, cooldownMs := 0, decisionEveryMs := 0,
    useCycleFilter := false, minCyclePnlBps := 0, estFeesBps := 60, trailBps := 0, hardBps := 0,
    maxPctA := 15, maxPctB := 15, minTrA := 5, minTrB := 50, capA := 10, capB := 100,
    reserveAda := 0, aIsAda := false, minNotionalOut := 0, totalFeeBps := 0 }

/-- C2 scenario state: LONG_A open at entry 100. -/
def sC2 : BTState :=
  { invA := 100, invB := 1000, center := 100, lastTradeAt := 0, nextDecisionAt := 0,
    posMode := PosMode.LONG_A, entryMid := 100, peakMid := 100, troughMid := 100 }

/-- C2 scenario state after the start-of-tick update at mid 110. -/
def sC2a : BTState :=
  { invA := 100, invB := 1000, center := 101, lastTradeAt := 0, nextDecisionAt := 0,
    posMode := PosMode.LONG_A, entryMid := 100, peakMid := 110, troughMid := 100 }

/-- C2 scenario state after the executed SELL_A of 10 A at mid 110 (fee 0). -/
def sC2b : BTState :=
  { invA := 90, invB := 2100, center := 101, lastTradeAt := 1000, nextDecisionAt := 0,
    posMode := PosMode.LONG_B, entryMid := 110, peakMid := 110, troughMid := 110 }

/-- C3 scenario parameters (same shape as pC2). -/
def pC3 : Params :=
  { bandBps := 50, alpha := 1/10, edgeBps := 5, cooldownMs := 0, decisionEveryMs := 0,
    useCycleFilter := false, minCyclePnlBps := 0, estFeesBps := 60, trailBps := 0, hardBps := 0,
    maxPctA := 15, maxPctB := 15, minTrA := 5, minTrB := 50, capA := 10, capB := 100,
    reserveAda := 0, aIsAda := false, minNotionalOut := 0, totalFeeBps := 0 }

/-- C3 scenario state: no open position, balance 3 A, below the floor of 5. -/
def sC3 : BTState :=
  { invA := 3, invB := 0, center := 100, lastTradeAt := 0, nextDecisionAt := 0,
    posMode := PosMode.NONE, entryMid := 0, peakMid := 0, troughMid := 0 }

/-- C3 scenario state after the start-of-tick update at mid 110. -/
def sC3a : BTState :=
  { invA := 3, invB := 0, center := 101, lastTradeAt := 0, nextDecisionAt := 0,
    posMode := PosMode.NONE, entryMid := 0, peakMid := 0, troughMid := 0 }

/-- C3 scenario state after the executed SELL_A of all 3 A at mid 110 (fee 0). -/
def sC3b : BTState :=
  { invA := 0, invB := 330, center := 101, lastTradeAt := 1000, nextDecisionAt := 0,
    posMode := PosMode.LONG_B, entryMid := 110, peakMid := 110, troughMid := 110 }

/-- C4 scenario parameters: decision cadence of one hour (3600000 ms). -/
def pC4 : Params :=
  { bandBps := 50, alpha := 1/10, edgeBps := 5, cooldownMs := 0, decisionEveryMs := 3600000,
    useCycleFilter := true, minCyclePnlBps := 0, estFeesBps := 60, trailBps := 0, hardBps := 0,
    maxPctA := 15, maxPctB := 15, minTrA := 5, minTrB := 50, capA := 10, capB := 100,
    reserveAda := 0, aIsAda := false, minNotionalOut := 0, totalFeeBps := 30 }

/-- C4 scenario state: the startup alignment at the first series timestamp 0
has set nextDecisionAt to the next hour boundary 3600000. -/
def sC4 : BTState :=
  { invA := 100, invB := 0, center := 100, lastTradeAt := 0, nextDecisionAt := 3600000,
    posMode := PosMode.NONE, entryMid := 0, peakMid := 0, troughMid := 0 }

/-- C5 scenario parameters (same shape as pC2). -/
def pC5 : Params :=
  { bandBps := 50, alpha := 1/10, edgeBps := 5, cooldownMs := 0, decisionEveryMs := 0,
    useCycleFilter := false, minCyclePnlBps := 0, estFeesBps := 60, trailBps := 0, hardBps := 0,
    maxPctA := 15, maxPctB := 15, minTrA := 5, minTrB := 50, capA := 10, capB := 100,
    reserveAda := 0, aIsAda := false, minNotionalOut := 0, totalFeeBps := 0 }

/-- C5 scenario state: LONG_A open at entry 100. -/
def sC5 : BTState :=
  { invA := 100, invB := 1000, center := 100, lastTradeAt := 0, nextDecisionAt := 0,
    posMode := PosMode.LONG_A, entryMid := 100, peakMid := 100, troughMid := 100 }

/-- C5 scenario state after the start-of-tick update at mid 110. -/
def sC5a : BTState :=
  { invA := 100, invB := 1000, center := 101, lastTradeAt := 0, nextDecisionAt := 0,
    posMode := PosMode.LONG_A, entryMid := 100, peakMid := 110, troughMid := 100 }

/-- C5 scenario state after the executed closing SELL_A at mid 110. -/
def sC5b : BTState :=
  { invA := 90, invB := 2100, center := 101, lastTradeAt := 1000, nextDecisionAt := 0,
    posMode := PosMode.LONG_B, entryMid := 110, peakMid := 110, troughMid := 110 }

/-- C9 scenario parameters: alpha read through num(some 2, 0.10), hence 2,
outside the interval accepted by the config.ts schema. -/
def pC9 : Params :=
  { bandBps := 50, alpha := num (some 2) (1/10), edgeBps := 5, cooldownMs := 0,
    decisionEveryMs := 0, useCycleFilter := true, minCyclePnlBps := 0, estFeesBps := 60,
    trailBps := 0, hardBps := 0, maxPctA := 15, maxPctB := 15, minTrA := 5, minTrB := 50,
    capA := 10, capB := 100, reserveAda := 0, aIsAda := false, minNotionalOut := 0,
    totalFeeBps := 30 }

/-- C9 scenario state: flat, center seeded at 100. -/
def sC9 : BTState :=
  { invA := 100, invB := 0, center := 100, lastTradeAt := 0, nextDecisionAt := 0,
    posMode := PosMode.NONE, entryMid := 0, peakMid := 0, troughMid := 0 }

/-- C10 scenario parameters (same shape as pC2). -/
def pC10 : Params :=
  { bandBps := 50, alpha := 1/10, edgeBps := 5, cooldownMs := 0, decisionEveryMs := 0,
    useCycleFilter := false, minCyclePnlBps := 0, estFeesBps := 60, trailBps := 0, hardBps := 0,
    maxPctA := 15, maxPctB := 15, minTrA := 5, minTrB := 50, capA := 10, capB := 100,
    reserveAda := 0, aIsAda := false, minNotionalOut := 0, totalFeeBps := 0 }

/-- C10 scenario state: flat, about to open via SELL_A at mid 110. -/
def sC10 : BTState :=
  { invA := 100, invB := 1000, center := 100, lastTradeAt := 0, nextDecisionAt := 0,
    posMode := PosMode.NONE, entryMid := 0, peakMid := 0, troughMid := 0 }

/-- C10 scenario state after the start-of-tick update at mid 110. -/
def sC10a : BTState :=
  { invA := 100, invB := 1000, center := 101, lastTradeAt := 0, nextDecisionAt := 0,
    posMode := PosMode.NONE, entryMid := 0, peakMid := 0, troughMid := 0 }

/-- C10 scenario state after the executed opening SELL_A at mid 110. -/
def sC10b : BTState :=
  { invA := 90, invB := 2100, center := 101, lastTradeAt := 1000, nextDecisionAt := 0,
    posMode := PosMode.LONG_B, entryMid := 110, peakMid := 110, troughMid := 110 }


/-! ### Projection and case lemmas about the decision pipeline -/

theorem tickUpdate_posMode (p : Params) (s : BTState) (mid : ℚ) :
    (tickUpdate p s mid).posMode = s.posMode := by
  unfold tickUpdate
  split <;> rfl

theorem tickUpdate_nextDecisionAt (p : Params) (s : BTState) (mid : ℚ) :
    (tickUpdate p s mid).nextDecisionAt = s.nextDecisionAt := by
  unfold tickUpdate
  split <;> rfl

theorem tickUpdate_lastTradeAt (p : Params) (s : BTState) (mid : ℚ) :
    (tickUpdate p s mid).lastTradeAt = s.lastTradeAt := by
  unfold tickUpdate
  split <;> rfl

theorem tickUpdate_invA (p : Params) (s : BTState) (mid : ℚ) :
    (tickUpdate p s mid).invA = s.invA := by
  unfold tickUpdate
  split <;> rfl

theorem tickUpdate_invB (p : Params) (s : BTState) (mid : ℚ) :
    (tickUpdate p s mid).invB = s.invB := by
  unfold tickUpdate
  split <;> rfl

theorem applyCooldown_cases (p : Params) (l t : Int) (a : Act) :
    applyCooldown p l t a = a ∨ applyCooldown p l t a = Act.HOLD := by
  unfold applyCooldown
  split
  · right; rfl
  · left; rfl

theorem applyCooldown_HOLD (p : Params) (l t : Int) :
    applyCooldown p l t Act.HOLD = Act.HOLD := by
  unfold applyCooldown
  split <;> rfl

theorem applySameSide_HOLD (m : PosMode) : applySameSide m Act.HOLD = Act.HOLD := by
  cases m <;> simp [applySameSide]

theorem applySameSide_eq_SELL_A (m : PosMode) (a : Act)
    (h : applySameSide m a = Act.SELL_A) : m ≠ PosMode.LONG_B := by
  cases m <;> cases a <;> simp_all [applySameSide]

theorem applySameSide_eq_SELL_B (m : PosMode) (a : Act)
    (h : applySameSide m a = Act.SELL_B) : m ≠ PosMode.LONG_A := by
  cases m <;> cases a <;> simp_all [applySameSide]

theorem applySameSide_LONG_B_SELL_B :
    applySameSide PosMode.LONG_B Act.SELL_B = Act.SELL_B := by
  simp [applySameSide]

theorem applySameSide_LONG_A_SELL_A :
    applySameSide PosMode.LONG_A Act.SELL_A = Act.SELL_A := by
  simp [applySameSide]

theorem applyProfitFilter_cases (p : Params) (s : BTState) (mid : ℚ)
    (forced : Option Act) (a : Act) :
    applyProfitFilter p s mid forced a = a ∨ applyProfitFilter p s mid forced a = Act.HOLD := by
  unfold applyProfitFilter
  split
  · right; rfl
  · left; rfl

theorem applyProfitFilter_HOLD (p : Params) (s : BTState) (mid : ℚ) (forced : Option Act) :
    applyProfitFilter p s mid forced Act.HOLD = Act.HOLD := by
  unfold applyProfitFilter
  split <;> rfl

theorem applyProfitFilter_forced (p : Params) (s : BTState) (mid : ℚ) (c : Act) (a : Act) :
    applyProfitFilter p s mid (some c) a = a := by
  unfold applyProfitFilter
  rw [if_neg]
  rintro ⟨-, -, -, -, h⟩
  exact Option.noConfusion h

theorem forcedCloseSig_shape (p : Params) (s : BTState) (mid : ℚ) :
    forcedCloseSig p s mid = none ∨
      (s.posMode ≠ PosMode.NONE ∧
        forcedCloseSig p s mid =
          some (if s.posMode = PosMode.LONG_B then Act.SELL_B else Act.SELL_A)) := by
  unfold forcedCloseSig
  dsimp only
  split_ifs <;> simp_all

theorem forcedCloseSig_some (p : Params) (s : BTState) (mid : ℚ) (c : Act)
    (h : forcedCloseSig p s mid = some c) :
    (s.posMode = PosMode.LONG_B ∧ c = Act.SELL_B) ∨
      (s.posMode = PosMode.LONG_A ∧ c = Act.SELL_A) := by
  rcases forcedCloseSig_shape p s mid with hs0 | ⟨hne, hval⟩
  · rw [hs0] at h
    exact Option.noConfusion h
  · rw [hval] at h
    have hc : (if s.posMode = PosMode.LONG_B then Act.SELL_B else Act.SELL_A) = c :=
      Option.some_inj.mp h
    cases hp : s.posMode with
    | NONE => exact absurd hp hne
    | LONG_A =>
      right
      refine ⟨rfl, ?_⟩
      rw [hp] at hc
      simpa using hc.symm
    | LONG_B =>
      left
      refine ⟨rfl, ?_⟩
      rw [hp] at hc
      simpa using hc.symm

theorem decideAction_forced (p : Params) (s : BTState) (t : Int) (mid : ℚ) (c : Act)
    (h : forcedCloseSig p s mid = some c) :
    decideAction p s t mid = applyCooldown p s.lastTradeAt t c := by
  unfold decideAction
  rw [h, Option.getD_some]
  rcases applyCooldown_cases p s.lastTradeAt t c with hc | hc
  · rw [hc]
    rcases forcedCloseSig_some p s mid c h with ⟨hm, hcb⟩ | ⟨hm, hcb⟩
    · subst hcb
      rw [hm, applySameSide_LONG_B_SELL_B, applyProfitFilter_forced]
    · subst hcb
      rw [hm, applySameSide_LONG_A_SELL_A, applyProfitFilter_forced]
  · rw [hc, applySameSide_HOLD, applyProfitFilter_HOLD]

theorem decideAction_SELL_A_posMode (p : Params) (s : BTState) (t : Int) (mid : ℚ)
    (h : decideAction p s t mid = Act.SELL_A) : s.posMode ≠ PosMode.LONG_B := by
  unfold decideAction at h
  rcases applyProfitFilter_cases p s mid (forcedCloseSig p s mid)
      (applySameSide s.posMode
        (applyCooldown p s.lastTradeAt t
          ((forcedCloseSig p s mid).getD
            (rawAction p.edgeBps mid (boundsLower s.center p.bandBps)
              (boundsUpper s.center p.bandBps))))) with hc | hc
  · rw [hc] at h
    exact applySameSide_eq_SELL_A _ _ h
  · rw [hc] at h
    simp at h

theorem decideAction_SELL_B_posMode (p : Params) (s : BTState) (t : Int) (mid : ℚ)
    (h : decideAction p s t mid = Act.SELL_B) : s.posMode ≠ PosMode.LONG_A := by
  unfold decideAction at h
  rcases applyProfitFilter_cases p s mid (forcedCloseSig p s mid)
      (applySameSide s.posMode
        (applyCooldown p s.lastTradeAt t
          ((forcedCloseSig p s mid).getD
            (rawAction p.edgeBps mid (boundsLower s.center p.bandBps)
              (boundsUpper s.center p.bandBps))))) with hc | hc
  · rw [hc] at h
    exact applySameSide_eq_SELL_B _ _ h
  · rw [hc] at h
    simp at h


/-! ### Execution-branch lemmas -/

theorem applyPosAfterSellA_posMode (s : BTState) (mid : ℚ) :
    (applyPosAfterSellA s mid).posMode = PosMode.LONG_B := by
  unfold applyPosAfterSellA
  cases h : s.posMode <;> simp [h, closePos, openPos]

theorem applyPosAfterSellB_posMode (s : BTState) (mid : ℚ) :
    (applyPosAfterSellB s mid).posMode = PosMode.LONG_A := by
  unfold applyPosAfterSellB
  cases h : s.posMode <;> simp [h, closePos, openPos]

theorem applyPosAfterSellA_open (s : BTState) (mid : ℚ) (h : s.posMode ≠ PosMode.LONG_B) :
    (applyPosAfterSellA s mid).entryMid = mid ∧ (applyPosAfterSellA s mid).peakMid = mid ∧
      (applyPosAfterSellA s mid).troughMid = mid := by
  unfold applyPosAfterSellA
  cases hp : s.posMode <;> simp_all [closePos, openPos]

theorem applyPosAfterSellB_open (s : BTState) (mid : ℚ) (h : s.posMode ≠ PosMode.LONG_A) :
    (applyPosAfterSellB s mid).entryMid = mid ∧ (applyPosAfterSellB s mid).peakMid = mid ∧
      (applyPosAfterSellB s mid).troughMid = mid := by
  unfold applyPosAfterSellB
  cases hp : s.posMode <;> simp_all [closePos, openPos]

theorem applyPosAfterSellA_nextDecisionAt (s : BTState) (mid : ℚ) :
    (applyPosAfterSellA s mid).nextDecisionAt = s.nextDecisionAt := by
  unfold applyPosAfterSellA
  cases h : s.posMode <;> simp [h, closePos, openPos]

theorem applyPosAfterSellB_nextDecisionAt (s : BTState) (mid : ℚ) :
    (applyPosAfterSellB s mid).nextDecisionAt = s.nextDecisionAt := by
  unfold applyPosAfterSellB
  cases h : s.posMode <;> simp [h, closePos, openPos]

theorem sellAUpdate_posMode (p : Params) (s : BTState) (t : Int) (mid z : ℚ) :
    (sellAUpdate p s t mid z).posMode = s.posMode := rfl

theorem sellBUpdate_posMode (p : Params) (s : BTState) (t : Int) (mid z : ℚ) :
    (sellBUpdate p s t mid z).posMode = s.posMode := rfl

theorem sellAUpdate_nextDecisionAt (p : Params) (s : BTState) (t : Int) (mid z : ℚ) :
    (sellAUpdate p s t mid z).nextDecisionAt =
      (if p.decisionEveryMs > 0 then alignNextDecision p t else s.nextDecisionAt) := rfl

theorem sellBUpdate_nextDecisionAt (p : Params) (s : BTState) (t : Int) (mid z : ℚ) :
    (sellBUpdate p s t mid z).nextDecisionAt =
      (if p.decisionEveryMs > 0 then alignNextDecision p t else s.nextDecisionAt) := rfl

theorem doSellA_spec (p : Params) (s1 : BTState) (t : Int) (mid : ℚ) :
    ((doSellA p s1 t mid).2 = StepRes.noTrade ∧ (doSellA p s1 t mid).1 = s1) ∨
      ((doSellA p s1 t mid).2 = StepRes.traded Act.SELL_A ∧
        (doSellA p s1 t mid).1.posMode = PosMode.LONG_B ∧
        (s1.posMode ≠ PosMode.LONG_B →
          (doSellA p s1 t mid).1.entryMid = mid ∧
            (doSellA p s1 t mid).1.peakMid = mid ∧
            (doSellA p s1 t mid).1.troughMid = mid) ∧
        (doSellA p s1 t mid).1.nextDecisionAt =
          (if p.decisionEveryMs > 0 then alignNextDecision p t else s1.nextDecisionAt)) := by
  unfold doSellA
  split
  · exact Or.inl ⟨rfl, rfl⟩
  · split
    · exact Or.inl ⟨rfl, rfl⟩
    · refine Or.inr ⟨rfl, applyPosAfterSellA_posMode _ _, ?_, ?_⟩
      · intro hns
        exact applyPosAfterSellA_open _ _ (by rwa [sellAUpdate_posMode])
      · rw [applyPosAfterSellA_nextDecisionAt, sellAUpdate_nextDecisionAt]

theorem doSellB_spec (p : Params) (s1 : BTState) (t : Int) (mid : ℚ) :
    ((doSellB p s1 t mid).2 = StepRes.noTrade ∧ (doSellB p s1 t mid).1 = s1) ∨
      ((doSellB p s1 t mid).2 = StepRes.traded Act.SELL_B ∧
        (doSellB p s1 t mid).1.posMode = PosMode.LONG_A ∧
        (s1.posMode ≠ PosMode.LONG_A →
          (doSellB p s1 t mid).1.entryMid = mid ∧
            (doSellB p s1 t mid).1.peakMid = mid ∧
            (doSellB p s1 t mid).1.troughMid = mid) ∧
        (doSellB p s1 t mid).1.nextDecisionAt =
          (if p.decisionEveryMs > 0 then alignNextDecision p t else s1.nextDecisionAt)) := by
  unfold doSellB
  split
  · exact Or.inl ⟨rfl, rfl⟩
  · split
    · exact Or.inl ⟨rfl, rfl⟩
    · refine Or.inr ⟨rfl, applyPosAfterSellB_posMode _ _, ?_, ?_⟩
      · intro hns
        exact applyPosAfterSellB_open _ _ (by rwa [sellBUpdate_posMode])
      · rw [applyPosAfterSellB_nextDecisionAt, sellBUpdate_nextDecisionAt]

/-- Preservation of an open position across one tick: the loop never returns
to a flat state once a position is open. -/
theorem step_preserves_open (p : Params) (s : BTState) (t : Int) (mid : ℚ)
    (h : s.posMode ≠ PosMode.NONE) : (step p s t mid).1.posMode ≠ PosMode.NONE := by
  unfold step
  split
  · rw [tickUpdate_posMode]
    exact h
  · split
    · rw [tickUpdate_posMode]
      exact h
    · rcases doSellA_spec p (tickUpdate p s mid) t mid with ⟨-, hst⟩ | ⟨-, hm, -, -⟩
      · rw [hst, tickUpdate_posMode]
        exact h
      · rw [hm]
        exact fun hx => PosMode.noConfusion hx
    · rcases doSellB_spec p (tickUpdate p s mid) t mid with ⟨-, hst⟩ | ⟨-, hm, -, -⟩
      · rw [hst, tickUpdate_posMode]
        exact h
      · rw [hm]
        exact fun hx => PosMode.noConfusion hx

theorem runState_preserves_open (p : Params) (ticks : List (Int × ℚ)) (s : BTState)
    (h : s.posMode ≠ PosMode.NONE) : (runState p s ticks).posMode ≠ PosMode.NONE := by
  induction ticks generalizing s with
  | nil => exact h
  | cons tk rest ih => exact ih _ (step_preserves_open p s tk.1 tk.2 h)


/-! ### Helper for edge monotonicity -/

theorem rawAction_ne_HOLD_iff (edgeBps mid lower upper : ℚ) :
    rawAction edgeBps mid lower upper ≠ Act.HOLD ↔
      ((mid > upper ∧ bpsOver mid upper ≥ edgeBps) ∨
        (mid < lower ∧ bpsOver lower mid ≥ edgeBps)) := by
  unfold rawAction
  split_ifs with h1 h2 <;> simp_all

/-! ### Claim theorems -/

/-- Claim C6: the EMA update of src/bot-twoway.ts returns exactly the observed
price on the first update with an uninitialized center; every later update
returns alpha * price + (1 - alpha) * center; a center already equal to the
constant price P stays exactly P; and for alpha in (0, 1] the distance from P
contracts by the factor (1 - alpha) on each update and is therefore
non-increasing, so feeding a constant price P repeatedly drives the center to
P. -/
theorem C6_ema_update (alpha P c : ℚ) :
    emaUpdate none alpha P = P ∧
      emaUpdate (some c) alpha P = alpha * P + (1 - alpha) * c ∧
      emaUpdate (some P) alpha P = P ∧
      (0 < alpha → alpha ≤ 1 →
        |emaUpdate (some c) alpha P - P| = (1 - alpha) * |c - P| ∧
          |emaUpdate (some c) alpha P - P| ≤ |c - P|) := by
  refine ⟨rfl, rfl, ?_, ?_⟩
  · show alpha * P + (1 - alpha) * P = P
    ring
  · intro h0 h1
    have key : emaUpdate (some c) alpha P - P = (1 - alpha) * (c - P) := by
      show alpha * P + (1 - alpha) * c - P = (1 - alpha) * (c - P)
      ring
    constructor
    · rw [key, abs_mul, abs_of_nonneg (by linarith : (0:ℚ) ≤ 1 - alpha)]
    · rw [key, abs_mul, abs_of_nonneg (by linarith : (0:ℚ) ≤ 1 - alpha)]
      calc (1 - alpha) * |c - P| ≤ 1 * |c - P| := by
            apply mul_le_mul_of_nonneg_right (by linarith) (abs_nonneg _)
        _ = |c - P| := one_mul _

/-- Witness for C6 at alpha = 1/2, P = 7, c = 3. -/
theorem C6_ema_update_witness :
    |emaUpdate (some 3) (1/2) 7 - 7| ≤ |(3:ℚ) - 7| :=
  ((C6_ema_update (1/2) 7 3).2.2.2 (by norm_num) (by norm_num)).2

/-- Claim C7: with total fees of 0 bps, the simulated SELL_A trade of the
backtest loop is equity-neutral at the execution price (the mark-to-market
value invA + invB / mid is unchanged), and the recorded per-trade pnl is
amountOut / mid - amountIn, which is 0 when fees are 0. -/
theorem C7_fee_free_equity (invA invB size mid : ℚ) (hmid : 0 < mid) :
    markedAda (sellASim invA invB mid size 0).1 (sellASim invA invB mid size 0).2.1 mid
        = markedAda invA invB mid ∧
      (sellASim invA invB mid size 0).2.2 = 0 ∧
      (∀ feeBps : ℚ, (sellASim invA invB mid size feeBps).2.2
        = applyFeesOut (mid * size) feeBps / mid - size) := by
  have hne : mid ≠ 0 := ne_of_gt hmid
  refine ⟨?_, ?_, fun feeBps => rfl⟩
  · show (invA - size) + (invB + applyFeesOut (mid * size) 0) / mid = invA + invB / mid
    unfold applyFeesOut
    field_simp
    ring
  · show applyFeesOut (mid * size) 0 / mid - size = 0
    unfold applyFeesOut
    field_simp

/-- Witness for C7: the round-trip scenario of the spec, base = 100, quote = 0,
a SELL_A of 10 at mid 2 with fee 0: equity before and after both equal 100. -/
theorem C7_fee_free_equity_witness :
    markedAda (sellASim 100 0 2 10 0).1 (sellASim 100 0 2 10 0).2.1 2
        = markedAda 100 0 2 ∧
      markedAda 100 0 2 = 100 ∧
      (sellASim 100 0 2 10 0).1 = 90 ∧ (sellASim 100 0 2 10 0).2.1 = 20 ∧
      (sellASim 100 0 2 10 0).2.2 = 0 := by
  refine ⟨(C7_fee_free_equity 100 0 10 2 (by norm_num)).1, ?_, ?_, ?_,
    (C7_fee_free_equity 100 0 10 2 (by norm_num)).2.1⟩
  · norm_num [markedAda]
  · norm_num [sellASim, applyFeesOut]
  · norm_num [sellASim, applyFeesOut]

/-- Claim C8: edge monotonicity of the raw band signal: with mid, lower and
upper fixed, if the larger edge threshold e2 triggers a non-HOLD signal then
so does any smaller threshold e1; hence the set of prices producing a non-HOLD
raw signal shrinks monotonically as edgeBps grows, decreasing edgeBps cannot
turn a trigger into a HOLD, and increasing it cannot turn a HOLD into a
trigger. -/
theorem C8_edge_monotone (e1 e2 mid lower upper : ℚ) (hle : e1 ≤ e2)
    (h : rawAction e2 mid lower upper ≠ Act.HOLD) :
    rawAction e1 mid lower upper ≠ Act.HOLD := by
  rw [rawAction_ne_HOLD_iff] at h ⊢
  rcases h with ⟨h1, h2⟩ | ⟨h1, h2⟩
  · exact Or.inl ⟨h1, le_trans hle h2⟩
  · exact Or.inr ⟨h1, le_trans hle h2⟩

/-- Witness for C8 at e1 = 3, e2 = 5, mid = 103, band [99, 101]. -/
theorem C8_edge_monotone_witness : rawAction 3 103 99 101 ≠ Act.HOLD :=
  C8_edge_monotone 3 5 103 99 101 (by norm_num)
    (by rw [rawAction_ne_HOLD_iff]; norm_num [bpsOver])

/-- Claim C3 (amended): for nonnegative balances and a configuration whose
floor does not exceed its cap, the sized amounts of
computeDynamicSizesFromInventory satisfy 0 <= size <= min(balance, cap), and
size >= min(floor, balance) - so a positive size below the floor is possible
exactly when the balance itself is below the floor. -/
theorem C3_sizing_bounds (p : Params) (invA invB mid : ℚ)
    (hA : 0 ≤ invA) (hB : 0 ≤ invB)
    (hta : 0 ≤ p.minTrA) (htca : p.minTrA ≤ p.capA)
    (htb : 0 ≤ p.minTrB) (htcb : p.minTrB ≤ p.capB) :
    (0 ≤ (computeDynamicSizesFromInventory p invA invB mid).1 ∧
      (computeDynamicSizesFromInventory p invA invB mid).1 ≤ min invA p.capA ∧
      min p.minTrA invA ≤ (computeDynamicSizesFromInventory p invA invB mid).1) ∧
    (0 ≤ (computeDynamicSizesFromInventory p invA invB mid).2 ∧
      (computeDynamicSizesFromInventory p invA invB mid).2 ≤ min invB p.capB ∧
      min p.minTrB invB ≤ (computeDynamicSizesFromInventory p invA invB mid).2) := by
  unfold computeDynamicSizesFromInventory clamp
  dsimp only
  constructor
  · refine ⟨le_min hA (le_trans hta (le_max_left _ _)), ?_, ?_⟩
    · exact min_le_min (le_refl invA) (max_le htca (min_le_left _ _))
    · rw [min_comm p.minTrA invA]
      exact min_le_min (le_refl invA) (le_max_left _ _)
  · refine ⟨le_min hB (le_trans htb (le_max_left _ _)), ?_, ?_⟩
    · exact min_le_min (le_refl invB) (max_le htcb (min_le_left _ _))
    · rw [min_comm p.minTrB invB]
      exact min_le_min (le_refl invB) (le_max_left _ _)

/-- Witness for C3 (amended) at the C3 scenario configuration with balances
invA = 3, invB = 0 and mid = 110. -/
theorem C3_sizing_bounds_witness :
    0 ≤ (computeDynamicSizesFromInventory pC3 3 0 110).1 ∧
      (computeDynamicSizesFromInventory pC3 3 0 110).1 ≤ min 3 pC3.capA :=
  ⟨((C3_sizing_bounds pC3 3 0 110 (by norm_num) (by norm_num) (by norm_num [pC3])
      (by norm_num [pC3]) (by norm_num [pC3]) (by norm_num [pC3])).1).1,
   ((C3_sizing_bounds pC3 3 0 110 (by norm_num) (by norm_num) (by norm_num [pC3])
      (by norm_num [pC3]) (by norm_num [pC3]) (by norm_num [pC3])).1).2.1⟩


/-- Claim C1 (amended): the forced close (trailing or hard stop breach while a
position is open) overrides the raw band signal and is immune to the same-side
downgrade and to the cycle profit filter, but it is NOT immune to the
cooldown: the decision is exactly the forced-close side passed through the
cooldown gate, so within cooldownMs of the last trade even a forced close is
downgraded to HOLD.  The forced side is always the one that closes the open
position. -/
theorem C1_forced_close_cooldown (p : Params) (s : BTState) (t : Int) (mid : ℚ) (c : Act)
    (h : forcedCloseSig p s mid = some c) :
    decideAction p s t mid = applyCooldown p s.lastTradeAt t c ∧
      (s.posMode = PosMode.LONG_B → c = Act.SELL_B) ∧
      (s.posMode = PosMode.LONG_A → c = Act.SELL_A) := by
  refine ⟨decideAction_forced p s t mid c h, ?_, ?_⟩ <;> intro hm <;>
    rcases forcedCloseSig_some p s mid c h with ⟨hmode, hc⟩ | ⟨hmode, hc⟩ <;>
      first
        | exact hc
        | (rw [hm] at hmode; exact absurd hmode (by intro hx; exact PosMode.noConfusion hx))

/-- Claim C2: single-position invariant of one tick of the loop, for every
state and tick (hence along every tick sequence).  A SELL_A trade never
executes while LONG_B is open and a SELL_B trade never executes while LONG_A
is open (a same-side plan is downgraded to HOLD); an executed trade always
leaves the opposite-side position open, so the mode never goes LONG_B to
LONG_B or LONG_A to LONG_A through a trade; and a tick without a trade leaves
the mode unchanged.  Source naming: LONG_B is the spec's LONG_QUOTE, LONG_A
its LONG_BASE. -/
theorem C2_single_position (p : Params) (s : BTState) (t : Int) (mid : ℚ) :
    ((step p s t mid).2 = StepRes.traded Act.SELL_A →
        s.posMode ≠ PosMode.LONG_B ∧ (step p s t mid).1.posMode = PosMode.LONG_B) ∧
      ((step p s t mid).2 = StepRes.traded Act.SELL_B →
        s.posMode ≠ PosMode.LONG_A ∧ (step p s t mid).1.posMode = PosMode.LONG_A) ∧
      (((step p s t mid).2 = StepRes.cadenceSkip ∨ (step p s t mid).2 = StepRes.noTrade) →
        (step p s t mid).1.posMode = s.posMode) := by
  unfold step
  split
  · refine ⟨fun h => absurd h (by simp), fun h => absurd h (by simp), fun _ => ?_⟩
    exact tickUpdate_posMode p s mid
  · split
    case _ heq =>
      exact ⟨fun h => absurd h (by simp), fun h => absurd h (by simp),
        fun _ => tickUpdate_posMode p s mid⟩
    case _ heq =>
      rcases doSellA_spec p (tickUpdate p s mid) t mid with ⟨hr, hst⟩ | ⟨hr, hm, -, -⟩
      · refine ⟨fun h => ?_, fun h => ?_, fun _ => ?_⟩
        · rw [hr] at h
          exact absurd h (by simp)
        · rw [hr] at h
          exact absurd h (by simp)
        · rw [hst]
          exact tickUpdate_posMode p s mid
      · refine ⟨fun _ => ⟨?_, hm⟩, fun h => ?_, fun h => ?_⟩
        · have := decideAction_SELL_A_posMode p (tickUpdate p s mid) t mid heq
          rwa [tickUpdate_posMode] at this
        · rw [hr] at h
          exact absurd h (by simp)
        · rcases h with h | h <;> rw [hr] at h <;> exact absurd h (by simp)
    case _ heq =>
      rcases doSellB_spec p (tickUpdate p s mid) t mid with ⟨hr, hst⟩ | ⟨hr, hm, -, -⟩
      · refine ⟨fun h => ?_, fun h => ?_, fun _ => ?_⟩
        · rw [hr] at h
          exact absurd h (by simp)
        · rw [hr] at h
          exact absurd h (by simp)
        · rw [hst]
          exact tickUpdate_posMode p s mid
      · refine ⟨fun h => ?_, fun _ => ⟨?_, hm⟩, fun h => ?_⟩
        · rw [hr] at h
          exact absurd h (by simp)
        · have := decideAction_SELL_B_posMode p (tickUpdate p s mid) t mid heq
          rwa [tickUpdate_posMode] at this
        · rcases h with h | h <;> rw [hr] at h <;> exact absurd h (by simp)

/-- Claim C4 (amended): the cadence gate skips a tick exactly when the
cadence is configured and the tick time is before nextDecisionAt; a skipped
tick still performs the EMA-center and trailing-extreme update (and changes
nothing else); nextDecisionAt is re-aligned to the bucket boundary following t
only by an executed trade, and is left unchanged by a skipped or a
trade-less tick - so, once a bucket boundary passes without a trade, every
subsequent tick evaluates (is not cadence-skipped) until a trade occurs. -/
theorem C4_cadence_gate (p : Params) (s : BTState) (t : Int) (mid : ℚ) :
    ((step p s t mid).2 = StepRes.cadenceSkip ↔
        (p.decisionEveryMs > 0 ∧ t < s.nextDecisionAt)) ∧
      ((step p s t mid).2 = StepRes.cadenceSkip →
        (step p s t mid).1 = tickUpdate p s mid) ∧
      (∀ a : Act, (step p s t mid).2 = StepRes.traded a → p.decisionEveryMs > 0 →
        (step p s t mid).1.nextDecisionAt = alignNextDecision p t) ∧
      (((step p s t mid).2 = StepRes.cadenceSkip ∨ (step p s t mid).2 = StepRes.noTrade) →
        (step p s t mid).1.nextDecisionAt = s.nextDecisionAt) := by
  unfold step
  split
  case _ hg =>
    rw [tickUpdate_nextDecisionAt] at hg
    refine ⟨⟨fun _ => hg, fun _ => rfl⟩, fun _ => rfl, fun a h => absurd h (by simp),
      fun _ => ?_⟩
    exact tickUpdate_nextDecisionAt p s mid
  case _ hg =>
    rw [tickUpdate_nextDecisionAt] at hg
    split
    case _ heq =>
      refine ⟨⟨fun h => absurd h (by simp), fun h => absurd (h : _) hg⟩,
        fun h => absurd h (by simp), fun a h => absurd h (by simp), fun _ => ?_⟩
      exact tickUpdate_nextDecisionAt p s mid
    case _ heq =>
      rcases doSellA_spec p (tickUpdate p s mid) t mid with ⟨hr, hst⟩ | ⟨hr, -, -, hnext⟩
      · refine ⟨⟨fun h => ?_, fun h => absurd (h : _) hg⟩, fun h => ?_, fun a h => ?_,
          fun _ => ?_⟩
        · rw [hr] at h
          exact absurd h (by simp)
        · rw [hr] at h
          exact absurd h (by simp)
        · rw [hr] at h
          exact absurd h (by simp)
        · rw [hst]
          exact tickUpdate_nextDecisionAt p s mid
      · refine ⟨⟨fun h => ?_, fun h => absurd (h : _) hg⟩, fun h => ?_, fun a h hms => ?_,
          fun h => ?_⟩
        · rw [hr] at h
          exact absurd h (by simp)
        · rw [hr] at h
          exact absurd h (by simp)
        · rw [hnext, if_pos hms]
        · rcases h with h | h <;> rw [hr] at h <;> exact absurd h (by simp)
    case _ heq =>
      rcases doSellB_spec p (tickUpdate p s mid) t mid with ⟨hr, hst⟩ | ⟨hr, -, -, hnext⟩
      · refine ⟨⟨fun h => ?_, fun h => absurd (h : _) hg⟩, fun h => ?_, fun a h => ?_,
          fun _ => ?_⟩
        · rw [hr] at h
          exact absurd h (by simp)
        · rw [hr] at h
          exact absurd h (by simp)
        · rw [hr] at h
          exact absurd h (by simp)
        · rw [hst]
          exact tickUpdate_nextDecisionAt p s mid
      · refine ⟨⟨fun h => ?_, fun h => absurd (h : _) hg⟩, fun h => ?_, fun a h hms => ?_,
          fun h => ?_⟩
        · rw [hr] at h
          exact absurd h (by simp)
        · rw [hr] at h
          exact absurd h (by simp)
        · rw [hnext, if_pos hms]
        · rcases h with h | h <;> rw [hr] at h <;> exact absurd h (by simp)

/-- Claim C5 (amended): an opposing-side trade that closes the open position
does reset the position fields, but in the same step it immediately re-opens
the opposite-side position at the current mid (closePos is directly followed
by openPos in the source): after a closing SELL_A from LONG_A the state is
LONG_B with entry = peak = trough = mid, never NONE, and symmetrically for
SELL_B from LONG_B; a trade from the flat state also leaves a position open. -/
theorem C5_close_reopens (p : Params) (s : BTState) (t : Int) (mid : ℚ) :
    (s.posMode = PosMode.LONG_A → (step p s t mid).2 = StepRes.traded Act.SELL_A →
        (step p s t mid).1.posMode = PosMode.LONG_B ∧
          (step p s t mid).1.entryMid = mid ∧ (step p s t mid).1.peakMid = mid ∧
          (step p s t mid).1.troughMid = mid) ∧
      (s.posMode = PosMode.LONG_B → (step p s t mid).2 = StepRes.traded Act.SELL_B →
        (step p s t mid).1.posMode = PosMode.LONG_A ∧
          (step p s t mid).1.entryMid = mid ∧ (step p s t mid).1.peakMid = mid ∧
          (step p s t mid).1.troughMid = mid) ∧
      (∀ a : Act, s.posMode = PosMode.NONE → (step p s t mid).2 = StepRes.traded a →
        (step p s t mid).1.posMode ≠ PosMode.NONE) := by
  unfold step
  split
  · exact ⟨fun _ h => absurd h (by simp), fun _ h => absurd h (by simp),
      fun a _ h => absurd h (by simp)⟩
  · split
    case _ heq =>
      exact ⟨fun _ h => absurd h (by simp), fun _ h => absurd h (by simp),
        fun a _ h => absurd h (by simp)⟩
    case _ heq =>
      rcases doSellA_spec p (tickUpdate p s mid) t mid with ⟨hr, -⟩ | ⟨hr, hm, hopen, -⟩
      · exact ⟨fun _ h => by rw [hr] at h; exact absurd h (by simp),
          fun _ h => by rw [hr] at h; exact absurd h (by simp),
          fun a _ h => by rw [hr] at h; exact absurd h (by simp)⟩
      · refine ⟨fun hmode _ => ?_, fun hmode h => ?_, fun a hmode _ => ?_⟩
        · have hne : (tickUpdate p s mid).posMode ≠ PosMode.LONG_B := by
            rw [tickUpdate_posMode, hmode]
            intro hx
            exact PosMode.noConfusion hx
          exact ⟨hm, hopen hne⟩
        · rw [hr] at h
          exact absurd h (by simp)
        · rw [hm]
          intro hx
          exact PosMode.noConfusion hx
    case _ heq =>
      rcases doSellB_spec p (tickUpdate p s mid) t mid with ⟨hr, -⟩ | ⟨hr, hm, hopen, -⟩
      · exact ⟨fun _ h => by rw [hr] at h; exact absurd h (by simp),
          fun _ h => by rw [hr] at h; exact absurd h (by simp),
          fun a _ h => by rw [hr] at h; exact absurd h (by simp)⟩
      · refine ⟨fun hmode h => ?_, fun hmode _ => ?_, fun a hmode _ => ?_⟩
        · rw [hr] at h
          exact absurd h (by simp)
        · have hne : (tickUpdate p s mid).posMode ≠ PosMode.LONG_A := by
            rw [tickUpdate_posMode, hmode]
            intro hx
            exact PosMode.noConfusion hx
          exact ⟨hm, hopen hne⟩
        · rw [hm]
          intro hx
          exact PosMode.noConfusion hx

/-- Claim C10: every executed trade leaves a position open - the close of a
cycle atomically opens the opposite side in the same step - and an open
position is preserved by every subsequent tick of the loop, so from the first
executed trade onward the position mode is never NONE at the start of any
subsequent tick. -/
theorem C10_never_flat_after_trade (p : Params) (s : BTState) (t : Int) (mid : ℚ)
    (ticks : List (Int × ℚ)) :
    (∀ a : Act, (step p s t mid).2 = StepRes.traded a →
        (step p s t mid).1.posMode ≠ PosMode.NONE) ∧
      (s.posMode ≠ PosMode.NONE → (runState p s ticks).posMode ≠ PosMode.NONE) := by
  refine ⟨fun a h => ?_, runState_preserves_open p ticks s⟩
  by_cases hg : p.decisionEveryMs > 0 ∧ t < (tickUpdate p s mid).nextDecisionAt
  · unfold step at h
    rw [if_pos hg] at h
    exact absurd h (by simp)
  · rcases heq : decideAction p (tickUpdate p s mid) t mid with _ | _ | _
    · unfold step at h
      rw [if_neg hg, heq] at h
      exact absurd h (by simp)
    · unfold step at h ⊢
      rw [if_neg hg, heq] at h ⊢
      have h2 : (doSellA p (tickUpdate p s mid) t mid).2 = StepRes.traded a := h
      show (doSellA p (tickUpdate p s mid) t mid).1.posMode ≠ PosMode.NONE
      rcases doSellA_spec p (tickUpdate p s mid) t mid with ⟨hr, -⟩ | ⟨-, hm, -, -⟩
      · rw [hr] at h2
        exact absurd h2 (by simp)
      · rw [hm]
        intro hx
        exact PosMode.noConfusion hx
    · unfold step at h ⊢
      rw [if_neg hg, heq] at h ⊢
      have h2 : (doSellB p (tickUpdate p s mid) t mid).2 = StepRes.traded a := h
      show (doSellB p (tickUpdate p s mid) t mid).1.posMode ≠ PosMode.NONE
      rcases doSellB_spec p (tickUpdate p s mid) t mid with ⟨hr, -⟩ | ⟨-, hm, -, -⟩
      · rw [hr] at h2
        exact absurd h2 (by simp)
      · rw [hm]
        intro hx
        exact PosMode.noConfusion hx


/-! ### Scenario evaluations -/

theorem evalC1tick : tickUpdate pC1 sC1 90 = sC1a := by
  simp [tickUpdate, pC1, sC1, sC1a]
  norm_num

theorem evalC1forced : forcedCloseSig pC1 sC1a 90 = some Act.SELL_B := by
  norm_num [forcedCloseSig, trailDrawdownBps, hardStopFromEntryBps, pC1, sC1a]
  exact fun h => nomatch h

theorem evalC1dec : decideAction pC1 sC1a 30000 90 = Act.HOLD := by
  rw [decideAction_forced pC1 sC1a 30000 90 Act.SELL_B evalC1forced]
  decide

theorem evalC1step : step pC1 sC1 30000 90 = (sC1a, StepRes.noTrade) := by
  unfold step
  rw [evalC1tick, if_neg (by decide), evalC1dec]

/-- Counterexample to claim C1 as stated: at the C1 scenario the hard stop is
breached (forced close SELL_B demanded) and less than cooldownMs has elapsed
since the last trade, yet no trade fires - the tick holds and the balances
are unchanged, so the forced close does not pre-empt the cooldown. -/
theorem C1_counterexample :
    forcedCloseSig pC1 (tickUpdate pC1 sC1 90) 90 = some Act.SELL_B ∧
      ((30000 : Int) - sC1.lastTradeAt < pC1.cooldownMs) ∧
      (step pC1 sC1 30000 90).2 = StepRes.noTrade ∧
      (step pC1 sC1 30000 90).1.invA = sC1.invA ∧
      (step pC1 sC1 30000 90).1.invB = sC1.invB := by
  rw [evalC1tick, evalC1step]
  exact ⟨evalC1forced, by decide, rfl, rfl, rfl⟩

/-- Witness for C1 (amended) at the C1 scenario with the cooldown elapsed
(t = 100000): the decision is the forced close passed through the cooldown
gate, which lets it through. -/
theorem C1_forced_close_cooldown_witness :
    decideAction pC1 sC1a 100000 90
        = applyCooldown pC1 sC1a.lastTradeAt 100000 Act.SELL_B ∧
      applyCooldown pC1 sC1a.lastTradeAt 100000 Act.SELL_B = Act.SELL_B :=
  ⟨(C1_forced_close_cooldown pC1 sC1a 100000 90 Act.SELL_B evalC1forced).1, by decide⟩

theorem evalC2tick : tickUpdate pC2 sC2 110 = sC2a := by
  simp [tickUpdate, pC2, sC2, sC2a]
  norm_num

theorem evalC2dec : decideAction pC2 sC2a 1000 110 = Act.SELL_A := by
  norm_num [decideAction, forcedCloseSig, rawAction, bpsOver, boundsLower, boundsUpper,
    applyCooldown, applySameSide, applyProfitFilter, favorableMoveBps, trailDrawdownBps,
    hardStopFromEntryBps, pC2, sC2a, Option.getD]
  decide

theorem evalC2sell : doSellA pC2 sC2a 1000 110 = (sC2b, StepRes.traded Act.SELL_A) := by
  norm_num [doSellA, computeDynamicSizesFromInventory, clamp, min_def, max_def,
    sellAUpdate, applyFeesOut, applyPosAfterSellA, closePos, openPos,
    alignNextDecision, feeBufAda, pC2, sC2a, sC2b]

theorem evalC2step : step pC2 sC2 1000 110 = (sC2b, StepRes.traded Act.SELL_A) := by
  unfold step
  rw [evalC2tick, if_neg (by decide), evalC2dec]
  exact evalC2sell

/-- Witness for C2 at the C2 scenario: the executed SELL_A comes from a state
that is not LONG_B and leaves LONG_B open. -/
theorem C2_single_position_witness :
    sC2.posMode ≠ PosMode.LONG_B ∧ (step pC2 sC2 1000 110).1.posMode = PosMode.LONG_B :=
  (C2_single_position pC2 sC2 1000 110).1 (by rw [evalC2step])

theorem evalC3size : (computeDynamicSizesFromInventory pC3 3 0 110).1 = 3 := by
  norm_num [computeDynamicSizesFromInventory, clamp, min_def, max_def, feeBufAda, pC3]

theorem evalC3tick : tickUpdate pC3 sC3 110 = sC3a := by
  simp [tickUpdate, pC3, sC3, sC3a]
  norm_num

theorem evalC3dec : decideAction pC3 sC3a 1000 110 = Act.SELL_A := by
  norm_num [decideAction, forcedCloseSig, rawAction, bpsOver, boundsLower, boundsUpper,
    applyCooldown, applySameSide, applyProfitFilter, favorableMoveBps, trailDrawdownBps,
    hardStopFromEntryBps, pC3, sC3a, Option.getD]
  decide

theorem evalC3sell : doSellA pC3 sC3a 1000 110 = (sC3b, StepRes.traded Act.SELL_A) := by
  norm_num [doSellA, computeDynamicSizesFromInventory, clamp, min_def, max_def,
    sellAUpdate, applyFeesOut, applyPosAfterSellA, closePos, openPos,
    alignNextDecision, feeBufAda, pC3, sC3a, sC3b]

theorem evalC3step : step pC3 sC3 1000 110 = (sC3b, StepRes.traded Act.SELL_A) := by
  unfold step
  rw [evalC3tick, if_neg (by decide), evalC3dec]
  exact evalC3sell

/-- Counterexample to claim C3 as stated: with balance invA = 3 below the
floor minTrA = 5 (cap 10), the sized amount is 3 - positive yet strictly
below the minimum-trade floor - and the backtest loop actually executes this
below-floor trade, emptying the balance. -/
theorem C3_counterexample :
    (computeDynamicSizesFromInventory pC3 3 0 110).1 = 3 ∧
      (0 : ℚ) < 3 ∧ (3 : ℚ) < pC3.minTrA ∧
      (step pC3 sC3 1000 110).2 = StepRes.traded Act.SELL_A ∧
      (step pC3 sC3 1000 110).1.invA = 0 := by
  rw [evalC3step]
  refine ⟨evalC3size, by norm_num, by norm_num [pC3], rfl, rfl⟩

theorem evalC4tick : tickUpdate pC4 sC4 100 = sC4 := by
  simp [tickUpdate, pC4, sC4]
  norm_num

theorem evalC4dec1 : decideAction pC4 sC4 3600000 100 = Act.HOLD := by
  norm_num [decideAction, forcedCloseSig, rawAction, bpsOver, boundsLower, boundsUpper,
    applyCooldown, applySameSide, applyProfitFilter, favorableMoveBps, trailDrawdownBps,
    hardStopFromEntryBps, pC4, sC4, Option.getD]

theorem evalC4dec2 : decideAction pC4 sC4 4200000 100 = Act.HOLD := by
  norm_num [decideAction, forcedCloseSig, rawAction, bpsOver, boundsLower, boundsUpper,
    applyCooldown, applySameSide, applyProfitFilter, favorableMoveBps, trailDrawdownBps,
    hardStopFromEntryBps, pC4, sC4, Option.getD]

theorem evalC4step1 : step pC4 sC4 3600000 100 = (sC4, StepRes.noTrade) := by
  unfold step
  rw [evalC4tick, if_neg (by decide), evalC4dec1]

theorem evalC4step2 : step pC4 sC4 4200000 100 = (sC4, StepRes.noTrade) := by
  unfold step
  rw [evalC4tick, if_neg (by decide), evalC4dec2]

/-- Counterexample to claim C4 as stated: with decisionEveryMs = 3600000 and
nextDecisionAt = 3600000 (the startup alignment from the first series
timestamp 0), the ticks at t = 3600000 and t = 4200000 lie 10 minutes apart
in the same hour bucket, yet BOTH evaluate (neither takes the cadence-skip
path), because nextDecisionAt is only re-aligned by an executed trade. -/
theorem C4_counterexample :
    (step pC4 sC4 3600000 100).2 = StepRes.noTrade ∧
      (step pC4 (step pC4 sC4 3600000 100).1 4200000 100).2 = StepRes.noTrade ∧
      Int.fdiv 4200000 pC4.decisionEveryMs = Int.fdiv 3600000 pC4.decisionEveryMs ∧
      (3600000 : Int) < 4200000 := by
  rw [evalC4step1]
  exact ⟨rfl, by rw [evalC4step2], by decide, by decide⟩

/-- Witness for C4 (amended) at the C4 scenario: the tick at t = 0, which is
before nextDecisionAt = 3600000, takes the cadence-skip path. -/
theorem C4_cadence_gate_witness :
    (step pC4 sC4 0 100).2 = StepRes.cadenceSkip :=
  (C4_cadence_gate pC4 sC4 0 100).1.mpr ⟨by decide, by decide⟩

theorem evalC5tick : tickUpdate pC5 sC5 110 = sC5a := by
  simp [tickUpdate, pC5, sC5, sC5a]
  norm_num

theorem evalC5dec : decideAction pC5 sC5a 1000 110 = Act.SELL_A := by
  norm_num [decideAction, forcedCloseSig, rawAction, bpsOver, boundsLower, boundsUpper,
    applyCooldown, applySameSide, applyProfitFilter, favorableMoveBps, trailDrawdownBps,
    hardStopFromEntryBps, pC5, sC5a, Option.getD]
  decide

theorem evalC5sell : doSellA pC5 sC5a 1000 110 = (sC5b, StepRes.traded Act.SELL_A) := by
  norm_num [doSellA, computeDynamicSizesFromInventory, clamp, min_def, max_def,
    sellAUpdate, applyFeesOut, applyPosAfterSellA, closePos, openPos,
    alignNextDecision, feeBufAda, pC5, sC5a, sC5b]

theorem evalC5step : step pC5 sC5 1000 110 = (sC5b, StepRes.traded Act.SELL_A) := by
  unfold step
  rw [evalC5tick, if_neg (by decide), evalC5dec]
  exact evalC5sell

/-- Counterexample to claim C5 as stated: at the C5 scenario a SELL_A trade
closes the open LONG_A position, yet after the step the position state is not
NONE - it is LONG_B, because the close immediately re-opens the opposite
side in the same step. -/
theorem C5_counterexample :
    sC5.posMode = PosMode.LONG_A ∧
      (step pC5 sC5 1000 110).2 = StepRes.traded Act.SELL_A ∧
      (step pC5 sC5 1000 110).1.posMode ≠ PosMode.NONE ∧
      (step pC5 sC5 1000 110).1.posMode = PosMode.LONG_B := by
  rw [evalC5step]
  exact ⟨rfl, rfl, by decide, rfl⟩

/-- Witness for C5 (amended) at the C5 scenario: the closing SELL_A from
LONG_A leaves LONG_B open with entry = peak = trough = the execution mid. -/
theorem C5_close_reopens_witness :
    (step pC5 sC5 1000 110).1.posMode = PosMode.LONG_B ∧
      (step pC5 sC5 1000 110).1.entryMid = 110 ∧
      (step pC5 sC5 1000 110).1.peakMid = 110 ∧
      (step pC5 sC5 1000 110).1.troughMid = 110 :=
  (C5_close_reopens pC5 sC5 1000 110).1 rfl (by rw [evalC5step])

/-- Claim C9 (amended): the config.ts loader does validate BAND_ALPHA - the
schema accepts exactly the values in [0, 1] (and defaults to 0.06 when unset),
raising a configuration error otherwise - but the bot-twoway.ts variant reads
BAND_ALPHA through num(), which passes any finite value through unchanged with
no range check, so that trading loop can run with alpha outside [0, 1]. -/
theorem C9_alpha_validation (v fallback : ℚ) :
    (parseBandAlpha (some v) = Except.ok v ↔ (0 ≤ v ∧ v ≤ 1)) ∧
      parseBandAlpha none = Except.ok (6 / 100) ∧
      num (some v) fallback = v ∧
      num none fallback = fallback := by
  refine ⟨?_, rfl, rfl, rfl⟩
  show (if v < 0 then Except.error "BAND_ALPHA: below minimum 0"
      else if v > 1 then Except.error "BAND_ALPHA: above maximum 1"
      else Except.ok v) = Except.ok v ↔ (0 ≤ v ∧ v ≤ 1)
  split_ifs with h1 h2
  · constructor
    · intro h
      exact absurd h (by simp)
    · rintro ⟨h0, -⟩
      exact absurd h1 (not_lt.mpr h0)
  · constructor
    · intro h
      exact absurd h (by simp)
    · rintro ⟨-, hle⟩
      exact absurd h2 (not_lt.mpr hle)
  · constructor
    · intro _
      exact ⟨not_lt.mp h1, not_lt.mp h2⟩
    · intro _
      rfl

/-- Witness for C9 (amended) at v = 1/2: the schema accepts 1/2 and num
passes it through. -/
theorem C9_alpha_validation_witness :
    parseBandAlpha (some (1/2)) = Except.ok (1/2) ∧ num (some (1/2)) (1/10) = 1/2 :=
  ⟨(C9_alpha_validation (1/2) (1/10)).1.mpr (by norm_num),
    (C9_alpha_validation (1/2) (1/10)).2.2.1⟩

theorem evalC9tick : tickUpdate pC9 sC9 100 = sC9 := by
  simp [tickUpdate, num, pC9, sC9]
  norm_num

theorem evalC9dec : decideAction pC9 sC9 0 100 = Act.HOLD := by
  norm_num [decideAction, forcedCloseSig, rawAction, bpsOver, boundsLower, boundsUpper,
    applyCooldown, applySameSide, applyProfitFilter, favorableMoveBps, trailDrawdownBps,
    hardStopFromEntryBps, num, pC9, sC9, Option.getD]

theorem evalC9step : step pC9 sC9 0 100 = (sC9, StepRes.noTrade) := by
  unfold step
  rw [evalC9tick, if_neg (by decide), evalC9dec]

/-- Counterexample to claim C9 as stated: BAND_ALPHA = 2 lies outside [0, 1]
and the config.ts schema rejects it, but bot-twoway.ts adopts alpha = 2
through num() and its decision loop runs a tick normally with that alpha - so
startup does NOT fail for every configuration with alpha outside [0, 1]. -/
theorem C9_counterexample :
    num (some 2) (1/10) = 2 ∧
      ¬((2 : ℚ) ≤ 1) ∧
      parseBandAlpha (some 2) = Except.error "BAND_ALPHA: above maximum 1" ∧
      pC9.alpha = 2 ∧
      (step pC9 sC9 0 100).2 = StepRes.noTrade := by
  refine ⟨rfl, by norm_num, ?_, rfl, by rw [evalC9step]⟩
  norm_num [parseBandAlpha]

theorem evalC10tick : tickUpdate pC10 sC10 110 = sC10a := by
  simp [tickUpdate, pC10, sC10, sC10a]
  norm_num

theorem evalC10dec : decideAction pC10 sC10a 1000 110 = Act.SELL_A := by
  norm_num [decideAction, forcedCloseSig, rawAction, bpsOver, boundsLower, boundsUpper,
    applyCooldown, applySameSide, applyProfitFilter, favorableMoveBps, trailDrawdownBps,
    hardStopFromEntryBps, pC10, sC10a, Option.getD]
  decide

theorem evalC10sell : doSellA pC10 sC10a 1000 110 = (sC10b, StepRes.traded Act.SELL_A) := by
  norm_num [doSellA, computeDynamicSizesFromInventory, clamp, min_def, max_def,
    sellAUpdate, applyFeesOut, applyPosAfterSellA, closePos, openPos,
    alignNextDecision, feeBufAda, pC10, sC10a, sC10b]

theorem evalC10step : step pC10 sC10 1000 110 = (sC10b, StepRes.traded Act.SELL_A) := by
  unfold step
  rw [evalC10tick, if_neg (by decide), evalC10dec]
  exact evalC10sell

/-- Witness for C10 at the C10 scenario: the executed opening SELL_A leaves a
position open (the post-trade mode is not NONE). -/
theorem C10_never_flat_after_trade_witness :
    (step pC10 sC10 1000 110).1.posMode ≠ PosMode.NONE :=
  (C10_never_flat_after_trade pC10 sC10 1000 110 []).1 Act.SELL_A (by rw [evalC10step])

end TwoWayBot
